import Mathlib

/-!
Verification of the tutoring-orchestrator backend (`backend/core/revision_agents.py`,
`backend/core/revision_agent.py`, `backend/config.py`, `backend/api/revision.py`,
`backend/core/mongodb_client.py`) against its natural-language specification.

The Python code is shallowly embedded: dictionaries holding session documents become
a `Doc` structure over `Nat`/`Rat`/`List`/`String`; MongoDB `update_one` calls become
pure functions on an `Option Doc` store (the single document keyed by the session id);
the language-model service is an explicit `LLMOutcome` parameter (its free-text output
is opaque).  Python floats that only ever hold short decimal literals are modelled as
`Rat` (ordering and the 0/0.5/1 constants are exact in both representations).
Timestamps are not modelled (they influence no control flow).
-/

namespace TT

/-! ## Character / substring utilities

`lowerChar` models Python `str.lower` on the ASCII range (all keyword scans in the
source use ASCII keywords).  `containsSub pat text` models the Python substring test
`pat in text` over explicit character lists. -/

def lowerChar (c : Char) : Char :=
  if 65 ≤ c.toNat ∧ c.toNat ≤ 90 then Char.ofNat (c.toNat + 32) else c

def isPrefixList : List Char → List Char → Bool
  | [], _ => true
  | _ :: _, [] => false
  | a :: as, b :: bs => a == b && isPrefixList as bs

def containsSub (pat : List Char) : List Char → Bool
  | [] => isPrefixList pat []
  | c :: rest => isPrefixList pat (c :: rest) || containsSub pat rest

/-- Python idiom `any(x in text for x in pats)` over lower-cased text. -/
def anyKeyword (pats : List String) (text : List Char) : Bool :=
  pats.any fun p => containsSub p.data text

/-! ## `backend/config.py` — `Config.calculate_topic_limits`

Source:
```
base_conversations = max(cls.MIN_CONVERSATIONS, content_chunks * 2)
max_conversations = min(cls.MAX_CONVERSATIONS, base_conversations)
completion_threshold = max(6, int(max_conversations * 0.6))
quiz_frequency = max(3, int(max_conversations / 5))
```
`max_conversations` ranges over the even numbers 8..50; for those values the IEEE-754
products/quotients `m * 0.6` and `m / 5` truncate under Python `int(...)` to exactly
`⌊3m/5⌋` and `⌊m/5⌋` (the products land on the integer exactly when `5 ∣ m` and are
at least 0.2 away from an integer otherwise), so the embedding uses `Nat` floor
division. -/

def MIN_CONVERSATIONS : Nat := 8
def MAX_CONVERSATIONS : Nat := 50

structure TopicLimits where
  max_conversations : Nat
  completion_threshold : Nat
  quiz_frequency : Nat
deriving DecidableEq, Repr

def calculate_topic_limits (content_chunks : Nat) : TopicLimits :=
  let base_conversations := max MIN_CONVERSATIONS (content_chunks * 2)
  let max_conversations := min MAX_CONVERSATIONS base_conversations
  { max_conversations := max_conversations
    completion_threshold := max 6 (max_conversations * 6 / 10)
    quiz_frequency := max 3 (max_conversations / 5) }

/-- Round-to-nearest of the fraction `a / b` (`b ≠ 0`); ties cannot arise at the
call sites below (the fractional parts of `6m/10` and `m/5` are multiples of 1/5). -/
def roundDiv (a b : Nat) : Nat := (2 * a + b) / (2 * b)

/-- Modelled from the spec: the claimed limit formula, which uses `round` where the
source uses `int` truncation: `max_conversations = clamp(N*2, [8, 50])`;
`completion_threshold = max(6, round(max_conversations*0.6))`;
`quiz_frequency = max(3, round(max_conversations/5))`. -/
def claimed_topic_limits (content_chunks : Nat) : TopicLimits :=
  let m := min 50 (max 8 (content_chunks * 2))
  { max_conversations := m
    completion_threshold := max 6 (roundDiv (m * 6) 10)
    quiz_frequency := max 3 (roundDiv m 5) }

/-- Modelled from the spec (amended wording): same formula with floor instead of
round: `completion_threshold = max(6, floor(max_conversations*0.6))`;
`quiz_frequency = max(3, floor(max_conversations/5))`. -/
def floor_topic_limits (content_chunks : Nat) : TopicLimits :=
  let m := min 50 (max 8 (content_chunks * 2))
  { max_conversations := m
    completion_threshold := max 6 (m * 6 / 10)
    quiz_frequency := max 3 (m / 5) }

/-! ## `backend/core/revision_agents.py` — `_detect_intent`

The language-model call is modelled by an `LLMOutcome` parameter: `ok reply` when
`generate_response` returns `reply`, `err` when it raises.  A `None`/empty
`user_query` is modelled as the empty string (the source tests falsiness). -/

inductive LLMOutcome where
  | ok (reply : String)
  | err
deriving DecidableEq

/-- The `except Exception:` keyword-fallback branch of `_detect_intent`
(lines 152–167 of `revision_agents.py`), scanning `user_query.lower()`. -/
def detect_intent_fallback (user_query : String) : String :=
  let text := user_query.data.map lowerChar
  if anyKeyword ["yes", "ready", "start", "proceed", "begin"] text then "PROCEED"
  else if anyKeyword ["quiz", "test", "check"] text then "QUIZ"
  else if anyKeyword ["next", "move on", "continue"] text then "NEXT"
  else if anyKeyword ["retry", "again", "explain"] text then "RETRY"
  else if anyKeyword ["end", "finish", "done", "stop"] text then "END"
  else if containsSub ['='] text ||
      anyKeyword ["answer", "a)", "b)", "c)", "true", "false"] text then "FEEDBACK"
  else "LEARN"

/-- Function `_detect_intent`: empty input short-circuits to `CONTINUE`; otherwise the model
reply is returned trimmed and upper-cased, and a raising model call falls back to
the keyword scan. -/
def detect_intent (llm : LLMOutcome) (user_query : String) : String :=
  if user_query = "" then "CONTINUE"
  else
    match llm with
    | .ok reply => reply.trim.toUpper
    | .err => detect_intent_fallback user_query

/-- Modelled from the spec (amended wording of the fallback policy): scan the
lower-cased message in order — yes/ready/start/proceed/begin → PROCEED,
quiz/test/check → QUIZ, next/"move on"/continue → NEXT, retry/again/explain →
RETRY, end/finish/done/stop → END (no "quit" keyword), then "=", answer, "a)",
"b)", "c)", "true", "false" → FEEDBACK, and everything else (including question
words and "?") → LEARN; there is no QUESTION branch. -/
def intent_fallback_spec (user_query : String) : String :=
  let text := user_query.data.map lowerChar
  if anyKeyword ["yes", "ready", "start", "proceed", "begin"] text then "PROCEED"
  else if anyKeyword ["quiz", "test", "check"] text then "QUIZ"
  else if anyKeyword ["next", "move on", "continue"] text then "NEXT"
  else if anyKeyword ["retry", "again", "explain"] text then "RETRY"
  else if anyKeyword ["end", "finish", "done", "stop"] text then "END"
  else if containsSub ['='] text ||
      anyKeyword ["answer", "a)", "b)", "c)", "true", "false"] text then "FEEDBACK"
  else "LEARN"

/-! ## `backend/core/revision_agents.py` — `_evaluate_quiz_performance`

The source extracts the first match of the regex `0\.\d+|1\.0|0|1` from the model
reply and converts it with `float(...)`, defaulting to `0.5` when the call raises
or nothing matches.  `re.search` semantics: leftmost starting position wins, and at
a given position the alternatives are tried left to right with `\d+` greedy.
Decimal digits are modelled over ASCII; parsed values are modelled as `Rat`. -/

def isDigitChar (c : Char) : Bool := 48 ≤ c.toNat && c.toNat ≤ 57

/-- The greedy `\d+` run at the front of the list. -/
def takeDigits : List Char → List Char
  | [] => []
  | c :: cs => if isDigitChar c then c :: takeDigits cs else []

def digitVal (c : Char) : Nat := c.toNat - 48

def natFromDigits (ds : List Char) : Nat := ds.foldl (fun acc c => acc * 10 + digitVal c) 0

/-- Value of the token `0.<ds>` as a rational. -/
def fracVal (ds : List Char) : Rat := (natFromDigits ds : Rat) / ((10 : Rat) ^ ds.length)

/-- Try the alternation `0\.\d+|1\.0|0|1` anchored at the head of the list (when
`0\.` is not followed by a digit the shorter alternative `0` still matches). -/
def score_match_at : List Char → Option Rat
  | '0' :: '.' :: rest =>
    if takeDigits rest = [] then some 0 else some (fracVal (takeDigits rest))
  | '1' :: '.' :: '0' :: _ => some 1
  | '0' :: _ => some 0
  | '1' :: _ => some 1
  | _ => none

/-- Search semantics of `re.search`: first position (left to right) where the alternation matches. -/
def score_search : List Char → Option Rat
  | [] => none
  | c :: cs =>
    match score_match_at (c :: cs) with
    | some v => some v
    | none => score_search cs

def evaluate_quiz_performance (llm : LLMOutcome) : Rat :=
  match llm with
  | .ok reply => (score_search reply.data).getD 0.5
  | .err => 0.5

/-! ## `backend/core/revision_agent.py` — `RevisionAgent.evaluate_answer`

Keyword containment first; the model is consulted only when no keyword matches, and
that branch always labels the verdict `WRONG` with the model reply as
justification/correction.  The model reply is an opaque parameter. -/

structure EvalResult where
  verdict : String
  justification : String
  correction : String
deriving DecidableEq

/-- Test `k.lower() in user_answer.lower()` for one keyword. -/
def keywordIn (k user_answer : String) : Bool :=
  containsSub (k.data.map lowerChar) (user_answer.data.map lowerChar)

def evaluate_answer (llmReply : String) (user_answer : String)
    (expected_keywords : List String) : EvalResult :=
  let matched := expected_keywords.filter fun k => keywordIn k user_answer
  if matched.length = expected_keywords.length ∧ 0 < expected_keywords.length then
    { verdict := "CORRECT", justification := "All keywords present.", correction := "" }
  else if 0 < matched.length then
    { verdict := "PARTIAL", justification := "Matched keywords.",
      correction := "Add missing key points." }
  else
    { verdict := "WRONG", justification := llmReply, correction := llmReply }

/-! ## Session documents and their persistence

`Doc` carries the fields of the session dictionary built by
`start_revision_session` (lines 38–57) that the claims mention.  `stage` is the
field written at creation; `current_stage` is the distinct key that
`update_session_progress` later `$set`s (absent at creation).  Conversation-history
turns are modelled as `(turn number, assistant message)` pairs; timestamps and the
message payload of the LLM are opaque.  The store holds the single document keyed
by this `session_id`, hence `Option Doc`. -/

structure Doc where
  session_id : String
  student_id : String
  topic : String
  conversation_count : Nat
  is_complete : Bool
  stage : String
  current_stage : Option String
  quiz_frequency : Nat
  concepts_learned : List String
  quiz_scores : List Rat
  needs_remedial : Bool
  max_conversations : Nat
  completion_threshold : Nat
  conversation_history : List (Nat × String)
  current_subtopic_index : Nat
  subtopic_completion_status : List Bool
  subtopic_quiz_scores : List Rat
deriving DecidableEq

/-- The fresh `session_data` dictionary of `start_revision_session` for a topic
with `k` subtopics, after the initial intro turn is appended. -/
def fresh_session_doc (k : Nat) (topic student_id session_id intro : String) : Doc :=
  let cfg := calculate_topic_limits k
  { session_id := session_id
    student_id := student_id
    topic := topic
    conversation_count := 0
    is_complete := false
    stage := "topic_intro"
    current_stage := none
    quiz_frequency := cfg.quiz_frequency
    concepts_learned := []
    quiz_scores := []
    needs_remedial := false
    max_conversations := cfg.max_conversations
    completion_threshold := cfg.completion_threshold
    conversation_history := [(0, intro)]
    current_subtopic_index := 0
    subtopic_completion_status := List.replicate k false
    subtopic_quiz_scores := [] }

/-- Method `MongoDBClient.save_revision_session`: `update_one({session_id}, {"$set":
session_data}, upsert=True)`.  The `session_data` dictionary built by
`start_revision_session` holds every modelled field except `current_stage` (that
key is only ever written later, by `update_session_progress`), so the `$set`
overwrites exactly those fields with the fields of `doc`: a `current_stage`
already present in the stored document survives, and on upsert-insert the new
document has no `current_stage` key (`none`). -/
def save_revision_session (store : Option Doc) (doc : Doc) : Option Doc :=
  match store with
  | none => some { doc with current_stage := none }
  | some old => some { doc with current_stage := old.current_stage }

/-- Method `DynamicRevisionAgent.start_revision_session` restricted to its effect on the
store: it unconditionally builds the fresh document and upserts it; the existing
store content is never read. -/
def start_revision_session (store : Option Doc) (k : Nat)
    (topic student_id session_id intro : String) : Option Doc :=
  save_revision_session store (fresh_session_doc k topic student_id session_id intro)

/-- A pre-existing session document with accumulated progress, used to exhibit
what a second `start` call does to it. -/
def priorDoc : Doc :=
  { fresh_session_doc 3 "t" "stu" "sid" "intro" with
    conversation_count := 5
    current_subtopic_index := 2
    subtopic_completion_status := [true, true, false]
    subtopic_quiz_scores := [0.8, 0.7]
    conversation_history := [(0, "intro"), (1, "a"), (2, "b")] }

/-! ## `_evaluate_subtopic_quiz` — list padding and indexed write (state part) -/

/-- The `for i in range(len(l), n): l.append(d)` padding idiom. -/
def padTo {α : Type} (d : α) (n : Nat) (l : List α) : List α :=
  l ++ List.replicate (n - l.length) d

/-- In-memory session mutation of `_evaluate_subtopic_quiz` (lines 370–423): pad
both tracking lists to `current_subtopic_index + 1`, write the score and
`passed = score >= 0.6` at `current_subtopic_index`, set the stage. -/
def evaluate_subtopic_quiz_state (score : Rat) (s : Doc) : Doc :=
  let passed : Bool := decide ((0.6 : Rat) ≤ score)
  let i := s.current_subtopic_index
  { s with
    subtopic_completion_status := (padTo false (i + 1) s.subtopic_completion_status).set i passed
    subtopic_quiz_scores := (padTo (0 : Rat) (i + 1) s.subtopic_quiz_scores).set i score
    stage := if passed then "ready_next" else "retry" }

/-! ## `_move_to_next_subtopic` and the per-turn persistence of `handle_user_input`

`handle_user_input` loads the stored document, increments `conversation_count` on
the in-memory copy, dispatches, then `_save_conversation_turn` (lines 226–253)
pushes a history turn and `$set`s exactly `{conversation_count, current_stage,
concepts_learned, quiz_scores, needs_remedial}` on the stored document — notably
not `current_subtopic_index`, not `is_complete`, and not the subtopic tracking
lists.  The LLM-generated response text is not modelled; what each NEXT call
produces is recorded in `NextOutcome` (`generated_lesson = some j` when the handler
generated the lesson of subtopic `j`, `none` in the completion branch). -/

structure NextOutcome where
  is_session_complete : Bool
  generated_lesson : Option Nat
  current_stage : String
deriving DecidableEq

/-- In-memory effect and result of `_move_to_next_subtopic` (lines 450–502) for a
topic with `k` subtopics. -/
def move_to_next_subtopic (k : Nat) (s : Doc) : Doc × NextOutcome :=
  let current_index := s.current_subtopic_index
  let s := { s with subtopic_completion_status := padTo false k s.subtopic_completion_status }
  let next_index := current_index + 1
  if k ≤ next_index then
    ({ s with is_complete := true },
      { is_session_complete := true, generated_lesson := none, current_stage := "complete" })
  else
    ({ s with current_subtopic_index := next_index },
      { is_session_complete := false, generated_lesson := some next_index,
        current_stage := "learning" })

/-- Composition of `_save_conversation_turn` + `MongoDBClient.save_conversation_turn` +
`update_session_progress`: push the turn, then `$set` the five progress keys from
the in-memory session `s` onto the stored document `db`. -/
def save_conversation_turn_db (db s : Doc) (stage : String) : Doc :=
  { db with
    conversation_history := db.conversation_history ++ [(s.conversation_count, "turn")]
    conversation_count := s.conversation_count
    current_stage := some stage
    concepts_learned := s.concepts_learned
    quiz_scores := s.quiz_scores
    needs_remedial := s.needs_remedial }

/-- One `handle_user_input` call whose detected intent is NEXT, on an existing
stored document `db`: load, bump the count, run `_move_to_next_subtopic`, persist
the turn.  Returns the new stored document and the handler result. -/
def handle_user_input_next (k : Nat) (db : Doc) : Doc × NextOutcome :=
  let s := { db with conversation_count := db.conversation_count + 1 }
  let r := move_to_next_subtopic k s
  (save_conversation_turn_db db r.1 r.2.current_stage, r.2)

/-- Run of `m` successive NEXT calls: final stored document plus the per-call
`is_session_complete` flags and generated-lesson records, in call order. -/
def run_next (k : Nat) : Nat → Doc → Doc × List NextOutcome
  | 0, db => (db, [])
  | m + 1, db =>
    let step := handle_user_input_next k db
    let rest := run_next k m step.1
    (rest.1, step.2 :: rest.2)

/-! ## All in-memory session mutations, as handler actions (for the `quiz_scores`
invariant)

One constructor per intent branch of `handle_user_input`; each records the
parameters its in-memory mutation depends on.  `END` (`_complete_session`),
`LEARN`, `RETRY` and the general-question branch mutate nothing beyond the
conversation count. -/

inductive HandlerAction where
  | proceed
  | learn
  | quiz
  | feedback (score : Rat)
  | retryAction
  | nextAction (k : Nat)
  | question
  | finish
deriving DecidableEq

/-- Handler `_start_first_subtopic` in-memory mutation. -/
def start_first_subtopic_state (s : Doc) : Doc :=
  { s with current_subtopic_index := 0, stage := "learning" }

/-- Handler `_generate_subtopic_quiz` in-memory mutation. -/
def generate_subtopic_quiz_state (s : Doc) : Doc :=
  { s with stage := "quiz" }

/-- One `handle_user_input` call (count bump + dispatched handler), restricted to
its in-memory mutation of the session dictionary. -/
def applyInput (s : Doc) (a : HandlerAction) : Doc :=
  let s := { s with conversation_count := s.conversation_count + 1 }
  match a with
  | .proceed => start_first_subtopic_state s
  | .learn => s
  | .quiz => generate_subtopic_quiz_state s
  | .feedback score => evaluate_subtopic_quiz_state score s
  | .retryAction => s
  | .nextAction k => (move_to_next_subtopic k s).1
  | .question => s
  | .finish => s

/-- Handler `_complete_session` (lines 255–287) statistics: average of the flat
`quiz_scores` history (0 when empty) and `quizzes_taken = len(quiz_scores)`. -/
def complete_session_stats (s : Doc) : Rat × Nat :=
  (if s.quiz_scores = [] then 0 else s.quiz_scores.sum / (s.quiz_scores.length : Rat),
    s.quiz_scores.length)

/-! ## Result dictionaries of the handlers, at the dictionary level

`handle_user_input` returns the dictionary of the dispatched handler unchanged, and
`POST /revision/continue` (`backend/api/revision.py`, lines 89–128) then evaluates
`result["conversation_count"]`.  To reason about which keys exist, the result
dictionaries are embedded literally as association lists. -/

inductive PyVal where
  | s (v : String)
  | b (v : Bool)
  | n (v : Nat)
  | q (v : Rat)
  | ns (v : List Nat)
  | ss (v : List String)
deriving DecidableEq

def PyDict := List (String × PyVal)

def lookupKey (d : PyDict) (k : String) : Option PyVal := List.lookup k d

/-- Early return of `handle_user_input` when the session does not exist. -/
def session_not_found_dict : PyDict :=
  [("response", .s "Session not found."), ("is_session_complete", .b false)]

/-- Return of `_complete_session` (note: no `current_stage` key either). -/
def complete_session_dict (summary : String) : PyDict :=
  [("response", .s summary), ("is_session_complete", .b true),
    ("session_summary", .s summary)]

/-- Return of `_start_first_subtopic` when subtopics exist. -/
def start_first_subtopic_dict (resp : String) (num : Nat) : PyDict :=
  [("response", .s resp), ("current_stage", .s "learning"),
    ("is_session_complete", .b false), ("sources", .ns [num])]

/-- Return of `_start_first_subtopic` when no subtopics were found. -/
def start_first_subtopic_error_dict : PyDict :=
  [("response", .s "No subtopics found."), ("current_stage", .s "error"),
    ("is_session_complete", .b false)]

/-- Return of `_teach_current_subtopic` in its normal branch. -/
def teach_current_subtopic_dict (resp : String) (num : Nat) : PyDict :=
  [("response", .s resp), ("current_stage", .s "learning"),
    ("is_session_complete", .b false), ("sources", .ns [num])]

/-- Return of `_generate_subtopic_quiz`. -/
def generate_subtopic_quiz_dict (resp : String) : PyDict :=
  [("response", .s resp), ("current_stage", .s "quiz"),
    ("is_session_complete", .b false)]

/-- Return of `_evaluate_subtopic_quiz`. -/
def evaluate_subtopic_quiz_dict (resp : String) (passed : Bool) (score : Rat) : PyDict :=
  [("response", .s resp),
    ("current_stage", .s (if passed then "passed" else "failed")),
    ("is_session_complete", .b false), ("performance_score", .q score)]

/-- Return of `_retry_subtopic_explanation`. -/
def retry_subtopic_explanation_dict (resp : String) (num : Nat) : PyDict :=
  [("response", .s resp), ("current_stage", .s "retry_learning"),
    ("is_session_complete", .b false), ("sources", .ns [num])]

/-- Return of `_move_to_next_subtopic`, completion branch. -/
def move_to_next_complete_dict (resp : String) : PyDict :=
  [("response", .s resp), ("current_stage", .s "complete"),
    ("is_session_complete", .b true), ("session_summary", .s resp)]

/-- Return of `_move_to_next_subtopic`, advance branch. -/
def move_to_next_learning_dict (resp : String) (num : Nat) : PyDict :=
  [("response", .s resp), ("current_stage", .s "learning"),
    ("is_session_complete", .b false), ("sources", .ns [num])]

/-- Return of `_handle_general_question`. -/
def handle_general_question_dict (resp : String) (srcs : List String) : PyDict :=
  [("response", .s resp), ("current_stage", .s "question_answered"),
    ("is_session_complete", .b false), ("sources", .ss srcs)]

/-- The body of `continue_revision_session` builds its `RevisionResponse` with
`conversation_count=result["conversation_count"]`; a missing key raises `KeyError`,
which the surrounding `except` turns into HTTP 500. -/
def continue_endpoint_count (result : PyDict) : Except String PyVal :=
  match lookupKey result "conversation_count" with
  | some v => .ok v
  | none => .error "HTTP 500"

/-! ## Helper lemmas -/

theorem padTo_length {α : Type} (d : α) (n : Nat) (l : List α) :
    (padTo d n l).length = max l.length n := by
  simp only [padTo, List.length_append, List.length_replicate]
  omega

theorem calculate_topic_limits_mono {n n' : Nat} (h : n ≤ n') :
    (calculate_topic_limits n).max_conversations ≤ (calculate_topic_limits n').max_conversations ∧
    (calculate_topic_limits n).completion_threshold ≤ (calculate_topic_limits n').completion_threshold ∧
    (calculate_topic_limits n).quiz_frequency ≤ (calculate_topic_limits n').quiz_frequency := by
  have hm : min 50 (max 8 (n * 2)) ≤ min 50 (max 8 (n' * 2)) :=
    min_le_min (le_refl 50) (max_le_max (le_refl 8) (Nat.mul_le_mul_right 2 h))
  refine ⟨hm, ?_, ?_⟩
  · exact max_le_max (le_refl 6) (Nat.div_le_div_right (Nat.mul_le_mul_right 6 hm))
  · exact max_le_max (le_refl 3) (Nat.div_le_div_right hm)

/-! ## Claim C4 -/

/-- C4, counterexample: at `N = 9` the code (`int` truncation) gives
`completion_threshold = 10` and `quiz_frequency = 3`, while the round-based
formula of the claim gives 11 and 4, so the claimed formula is not the one the
code computes. -/
theorem calculate_topic_limits_ne_claimed :
    calculate_topic_limits 9 ≠ claimed_topic_limits 9 ∧
    (calculate_topic_limits 9).completion_threshold = 10 ∧
    (claimed_topic_limits 9).completion_threshold = 11 ∧
    (calculate_topic_limits 9).quiz_frequency = 3 ∧
    (claimed_topic_limits 9).quiz_frequency = 4 := by
  refine ⟨?_, rfl, rfl, rfl, rfl⟩
  decide

/-- C4 (amended): `calculate_topic_limits(N)` returns
`max_conversations = clamp(N*2, [8, 50])`,
`completion_threshold = max(6, floor(max_conversations*0.6))` and
`quiz_frequency = max(3, floor(max_conversations/5))` — floor, not round; the
three spec examples (N=1, N=4 → 8/6; N=25 → 50/30) hold, and all three outputs
are deterministic (they are a pure function) and monotonic in N. -/
theorem calculate_topic_limits_spec {n n' : Nat} (h : n ≤ n') :
    calculate_topic_limits n = floor_topic_limits n ∧
    calculate_topic_limits 1 = ⟨8, 6, 3⟩ ∧
    calculate_topic_limits 4 = ⟨8, 6, 3⟩ ∧
    calculate_topic_limits 25 = ⟨50, 30, 10⟩ ∧
    (calculate_topic_limits n).max_conversations ≤ (calculate_topic_limits n').max_conversations ∧
    (calculate_topic_limits n).completion_threshold ≤
      (calculate_topic_limits n').completion_threshold ∧
    (calculate_topic_limits n).quiz_frequency ≤ (calculate_topic_limits n').quiz_frequency := by
  obtain ⟨h1, h2, h3⟩ := calculate_topic_limits_mono h
  exact ⟨rfl, rfl, rfl, rfl, h1, h2, h3⟩

/-- Witness for C4 (amended) at `n = 2 ≤ 3 = n'`. -/
theorem calculate_topic_limits_spec_witness :
    (2 : Nat) ≤ 3 ∧
    (calculate_topic_limits 2 = floor_topic_limits 2 ∧
      calculate_topic_limits 1 = ⟨8, 6, 3⟩ ∧
      calculate_topic_limits 4 = ⟨8, 6, 3⟩ ∧
      calculate_topic_limits 25 = ⟨50, 30, 10⟩ ∧
      (calculate_topic_limits 2).max_conversations ≤ (calculate_topic_limits 3).max_conversations ∧
      (calculate_topic_limits 2).completion_threshold ≤
        (calculate_topic_limits 3).completion_threshold ∧
      (calculate_topic_limits 2).quiz_frequency ≤ (calculate_topic_limits 3).quiz_frequency) :=
  ⟨by decide, calculate_topic_limits_spec (by decide)⟩

/-! ## Claim C5 -/

/-- C5: `_evaluate_subtopic_quiz` pads both tracking lists to
`current_subtopic_index + 1` entries (appending the defaults `false` / `0.0`, the
old entries untouched), then writes `score` and `passed = score ≥ 0.6` at
`current_subtopic_index`; the write position is strictly inside the padded lists
for every session state and index, so the indexed write cannot be out of range. -/
theorem evaluate_subtopic_quiz_safe (s : Doc) (score : Rat) :
    (evaluate_subtopic_quiz_state score s).subtopic_completion_status.length =
      max s.subtopic_completion_status.length (s.current_subtopic_index + 1) ∧
    (evaluate_subtopic_quiz_state score s).subtopic_quiz_scores.length =
      max s.subtopic_quiz_scores.length (s.current_subtopic_index + 1) ∧
    s.current_subtopic_index <
      (evaluate_subtopic_quiz_state score s).subtopic_completion_status.length ∧
    s.current_subtopic_index <
      (evaluate_subtopic_quiz_state score s).subtopic_quiz_scores.length ∧
    (evaluate_subtopic_quiz_state score s).subtopic_completion_status[
      s.current_subtopic_index]? = some (decide ((0.6 : Rat) ≤ score)) ∧
    (evaluate_subtopic_quiz_state score s).subtopic_quiz_scores[
      s.current_subtopic_index]? = some score ∧
    (padTo false (s.current_subtopic_index + 1) s.subtopic_completion_status).take
      s.subtopic_completion_status.length = s.subtopic_completion_status ∧
    (padTo false (s.current_subtopic_index + 1) s.subtopic_completion_status).drop
      s.subtopic_completion_status.length =
      List.replicate (s.current_subtopic_index + 1 - s.subtopic_completion_status.length) false ∧
    (padTo (0 : Rat) (s.current_subtopic_index + 1) s.subtopic_quiz_scores).drop
      s.subtopic_quiz_scores.length =
      List.replicate (s.current_subtopic_index + 1 - s.subtopic_quiz_scores.length) (0 : Rat) := by
  have hlen1 : (padTo false (s.current_subtopic_index + 1) s.subtopic_completion_status).length =
      max s.subtopic_completion_status.length (s.current_subtopic_index + 1) :=
    padTo_length _ _ _
  have hlen2 : (padTo (0 : Rat) (s.current_subtopic_index + 1) s.subtopic_quiz_scores).length =
      max s.subtopic_quiz_scores.length (s.current_subtopic_index + 1) :=
    padTo_length _ _ _
  have hi1 : s.current_subtopic_index <
      (padTo false (s.current_subtopic_index + 1) s.subtopic_completion_status).length := by
    rw [hlen1]; omega
  have hi2 : s.current_subtopic_index <
      (padTo (0 : Rat) (s.current_subtopic_index + 1) s.subtopic_quiz_scores).length := by
    rw [hlen2]; omega
  refine ⟨?_, ?_, ?_, ?_, ?_, ?_, ?_, ?_, ?_⟩
  · simp [evaluate_subtopic_quiz_state, List.length_set, hlen1]
  · simp [evaluate_subtopic_quiz_state, List.length_set, hlen2]
  · simp only [evaluate_subtopic_quiz_state, List.length_set]
    rw [hlen1]; omega
  · simp only [evaluate_subtopic_quiz_state, List.length_set]
    rw [hlen2]; omega
  · simpa only [evaluate_subtopic_quiz_state] using List.getElem?_set_eq_of_lt _ hi1
  · simpa only [evaluate_subtopic_quiz_state] using List.getElem?_set_eq_of_lt _ hi2
  · exact List.take_left _ _
  · exact List.drop_left _ _
  · exact List.drop_left _ _

/-! ## Claims C6 and C7 -/

theorem detect_intent_fallback_mem (q : String) :
    detect_intent_fallback q ∈
      ["PROCEED", "QUIZ", "NEXT", "RETRY", "END", "FEEDBACK", "LEARN"] := by
  unfold detect_intent_fallback
  dsimp only
  split
  · decide
  split
  · decide
  split
  · decide
  split
  · decide
  split
  · decide
  split
  · decide
  · decide

/-- C6, counterexample: with the model call raising, the fallback classifies
"quit" as LEARN, not END (there is no "quit" keyword in the END scan), and a
question-shaped message also yields LEARN (there is no QUESTION branch at all),
contradicting the claimed mapping. -/
theorem detect_intent_fallback_quit :
    detect_intent .err "quit" = "LEARN" ∧
    detect_intent .err "quit" ≠ "END" ∧
    detect_intent .err "what is recursion?" = "LEARN" := by
  refine ⟨rfl, ?_, rfl⟩
  decide

/-- C6 (amended): when the model call raises, the fallback scans the lower-cased
message with this precedence: yes/ready/start/proceed/begin → PROCEED,
quiz/test/check → QUIZ, next/"move on"/continue → NEXT, retry/again/explain →
RETRY, end/finish/done/stop → END (no "quit" keyword, so "quit" falls through to
LEARN), then "=" or answer/"a)"/"b)"/"c)"/true/false → FEEDBACK, and everything
else — including question words and "?" — → LEARN; no QUESTION label exists. -/
theorem detect_intent_fallback_spec_eq :
    (∀ q, detect_intent_fallback q = intent_fallback_spec q) ∧
    detect_intent .err "yes" = "PROCEED" ∧
    detect_intent .err "start the quiz" = "PROCEED" ∧
    detect_intent .err "quiz me" = "QUIZ" ∧
    detect_intent .err "test" = "QUIZ" ∧
    detect_intent .err "next" = "NEXT" ∧
    detect_intent .err "move on" = "NEXT" ∧
    detect_intent .err "continue" = "NEXT" ∧
    detect_intent .err "retry" = "RETRY" ∧
    detect_intent .err "explain" = "RETRY" ∧
    detect_intent .err "finish" = "END" ∧
    detect_intent .err "done" = "END" ∧
    detect_intent .err "stop" = "END" ∧
    detect_intent .err "quit" = "LEARN" ∧
    detect_intent .err "x = 2" = "FEEDBACK" ∧
    detect_intent .err "a) paris" = "FEEDBACK" ∧
    detect_intent .err "true" = "FEEDBACK" ∧
    detect_intent .err "how does this work?" = "LEARN" :=
  ⟨fun _ => rfl, rfl, rfl, rfl, rfl, rfl, rfl, rfl, rfl, rfl, rfl, rfl, rfl, rfl,
    rfl, rfl, rfl, rfl⟩

/-- C7: for every non-empty user message, when the model call raises,
`_detect_intent` lands in the keyword fallback and returns one of the fixed intent
labels; the fallback is a total function (structural recursion over the character
list), so it can never itself raise. -/
theorem detect_intent_fallback_total (q : String) (h : q ≠ "") :
    detect_intent .err q ∈
      ["PROCEED", "QUIZ", "NEXT", "RETRY", "END", "FEEDBACK", "LEARN"] := by
  unfold detect_intent
  rw [if_neg h]
  exact detect_intent_fallback_mem q

/-- Witness for C7 at the concrete message "hello". -/
theorem detect_intent_fallback_total_witness :
    ("hello" : String) ≠ "" ∧
    detect_intent .err "hello" ∈
      ["PROCEED", "QUIZ", "NEXT", "RETRY", "END", "FEEDBACK", "LEARN"] :=
  ⟨by decide, detect_intent_fallback_total "hello" (by decide)⟩

/-! ## Claim C8 -/

theorem takeDigits_all_digits (l : List Char) : ∀ c ∈ takeDigits l, isDigitChar c := by
  induction l with
  | nil => intro c hc; simp [takeDigits] at hc
  | cons a as ih =>
    intro c hc
    by_cases ha : isDigitChar a
    · rw [takeDigits, if_pos ha] at hc
      rcases List.mem_cons.mp hc with h | h
      · exact h ▸ ha
      · exact ih c h
    · rw [takeDigits, if_neg ha] at hc
      simp at hc

theorem foldl_digits_lt (ds : List Char) (hds : ∀ c ∈ ds, isDigitChar c) :
    ∀ acc : Nat, ds.foldl (fun a c => a * 10 + digitVal c) acc < (acc + 1) * 10 ^ ds.length := by
  induction ds with
  | nil => intro acc; simp
  | cons c cs ih =>
    intro acc
    have hc : digitVal c ≤ 9 := by
      have h := hds c (by simp)
      simp only [isDigitChar, Bool.and_eq_true, decide_eq_true_eq] at h
      simp only [digitVal]
      omega
    have h1 := ih (fun x hx => hds x (by simp [hx])) (acc * 10 + digitVal c)
    have h2 : (acc * 10 + digitVal c + 1) * 10 ^ cs.length ≤ (acc + 1) * 10 ^ (cs.length + 1) := by
      rw [pow_succ]
      calc (acc * 10 + digitVal c + 1) * 10 ^ cs.length
          ≤ (acc + 1) * 10 * 10 ^ cs.length :=
            Nat.mul_le_mul_right _ (by omega)
        _ = (acc + 1) * (10 ^ cs.length * 10) := by ring
    calc (c :: cs).foldl (fun a c => a * 10 + digitVal c) acc
        = cs.foldl (fun a c => a * 10 + digitVal c) (acc * 10 + digitVal c) := by
          rw [List.foldl_cons]
      _ < (acc * 10 + digitVal c + 1) * 10 ^ cs.length := h1
      _ ≤ (acc + 1) * 10 ^ (cs.length + 1) := h2
      _ = (acc + 1) * 10 ^ (c :: cs).length := by rw [List.length_cons]

theorem natFromDigits_lt (ds : List Char) (hds : ∀ c ∈ ds, isDigitChar c) :
    natFromDigits ds < 10 ^ ds.length := by
  have h := foldl_digits_lt ds hds 0
  simpa [natFromDigits] using h

theorem fracVal_bounds (ds : List Char) (hds : ∀ c ∈ ds, isDigitChar c) :
    0 ≤ fracVal ds ∧ fracVal ds ≤ 1 := by
  have h := natFromDigits_lt ds hds
  constructor
  · exact div_nonneg (by positivity) (by positivity)
  · rw [fracVal, div_le_one (by positivity)]
    calc (natFromDigits ds : Rat) ≤ ((10 ^ ds.length : Nat) : Rat) := by exact_mod_cast h.le
      _ = (10 : Rat) ^ ds.length := by push_cast; ring

theorem score_match_at_bounds (l : List Char) (v : Rat) (h : score_match_at l = some v) :
    0 ≤ v ∧ v ≤ 1 := by
  unfold score_match_at at h
  split at h
  · rename_i rest
    split at h
    · cases h; constructor <;> norm_num
    · cases h; exact fracVal_bounds _ (takeDigits_all_digits rest)
  · cases h; constructor <;> norm_num
  · cases h; constructor <;> norm_num
  · cases h; constructor <;> norm_num
  · cases h

theorem score_search_bounds (l : List Char) :
    ∀ v : Rat, score_search l = some v → 0 ≤ v ∧ v ≤ 1 := by
  induction l with
  | nil => intro v h; simp [score_search] at h
  | cons c cs ih =>
    intro v h
    unfold score_search at h
    split at h
    · rename_i w hw
      cases h
      exact score_match_at_bounds _ _ hw
    · exact ih v h

/-- C8: `_evaluate_quiz_performance` always returns a value in [0, 1]: when the
regex `0\.\d+|1\.0|0|1` has a first match in the model reply the parsed value of
that token is returned (the value of each alternative lies in [0, 1]), and the default
0.5 is returned both when the model call raises and when the reply contains no
matching token. -/
theorem evaluate_quiz_performance_contract (reply : String)
    (hnone : score_search reply.data = none) :
    (∀ llm, 0 ≤ evaluate_quiz_performance llm ∧ evaluate_quiz_performance llm ≤ 1) ∧
    evaluate_quiz_performance .err = 0.5 ∧
    evaluate_quiz_performance (.ok reply) = 0.5 ∧
    (∀ (r : String) (v : Rat), score_search r.data = some v →
      evaluate_quiz_performance (.ok r) = v) := by
  refine ⟨?_, rfl, ?_, ?_⟩
  · intro llm
    cases llm with
    | err =>
      constructor <;> norm_num [evaluate_quiz_performance]
    | ok r =>
      show 0 ≤ (score_search r.data).getD 0.5 ∧ (score_search r.data).getD 0.5 ≤ 1
      cases hm : score_search r.data with
      | none => constructor <;> norm_num
      | some v => simpa using score_search_bounds _ v hm
  · show (score_search reply.data).getD 0.5 = 0.5
    rw [hnone]
    rfl
  · intro r v hm
    show (score_search r.data).getD 0.5 = v
    rw [hm]
    rfl

/-- Witness for C8: a reply with no numeric token defaults to 0.5, a raising call
defaults to 0.5, bounds hold there, and the reply "0.75 overall" parses to 3/4. -/
theorem evaluate_quiz_performance_contract_witness :
    score_search ("great effort").data = none ∧
    evaluate_quiz_performance (.ok "great effort") = 0.5 ∧
    evaluate_quiz_performance .err = 0.5 ∧
    0 ≤ evaluate_quiz_performance (.ok "great effort") ∧
    evaluate_quiz_performance (.ok "0.75 overall") = 0.75 := by
  have h : score_search ("great effort").data = none := by decide
  have h75 : score_search ("0.75 overall").data = some (0.75 : Rat) := by
    have h1 : score_search ("0.75 overall").data = some (fracVal ['7', '5']) := rfl
    have h2 : natFromDigits ['7', '5'] = 75 := rfl
    rw [h1, fracVal, h2]
    norm_num
  have main := evaluate_quiz_performance_contract "great effort" h
  exact ⟨h, main.2.2.1, main.2.1, (main.1 (.ok "great effort")).1,
    main.2.2.2 "0.75 overall" 0.75 h75⟩

/-! ## Claim C9 -/

/-- C9: for a non-empty expected-keyword list, `evaluate_answer` returns verdict
CORRECT when every keyword appears case-insensitively as a substring of the
answer, PARTIAL when some but not all appear, and when none appear it delegates to
the model, returning verdict WRONG with the model reply as the correction. -/
theorem evaluate_answer_verdicts (llmReply user_answer : String) (ks : List String)
    (hne : ks ≠ []) :
    ((∀ k ∈ ks, keywordIn k user_answer) →
      (evaluate_answer llmReply user_answer ks).verdict = "CORRECT") ∧
    ((∃ k ∈ ks, keywordIn k user_answer) → (∃ k ∈ ks, ¬ keywordIn k user_answer) →
      (evaluate_answer llmReply user_answer ks).verdict = "PARTIAL") ∧
    ((∀ k ∈ ks, ¬ keywordIn k user_answer) →
      (evaluate_answer llmReply user_answer ks).verdict = "WRONG" ∧
      (evaluate_answer llmReply user_answer ks).correction = llmReply) := by
  have hpos : 0 < ks.length := List.length_pos.mpr hne
  refine ⟨?_, ?_, ?_⟩
  · intro hall
    have hlen : (ks.filter fun k => keywordIn k user_answer).length = ks.length :=
      List.filter_length_eq_length.mpr hall
    unfold evaluate_answer
    rw [if_pos ⟨hlen, hpos⟩]
  · rintro ⟨k0, hk0, hin⟩ ⟨k1, hk1, hnin⟩
    have hlt : (ks.filter fun k => keywordIn k user_answer).length < ks.length := by
      rcases Nat.lt_or_ge (ks.filter fun k => keywordIn k user_answer).length ks.length with
        h | h
      · exact h
      · have heq : (ks.filter fun k => keywordIn k user_answer).length = ks.length :=
          Nat.le_antisymm (List.length_filter_le _ _) h
        exact absurd (List.filter_length_eq_length.mp heq k1 hk1) hnin
    have hmem : k0 ∈ ks.filter fun k => keywordIn k user_answer :=
      List.mem_filter.mpr ⟨hk0, hin⟩
    have hgt : 0 < (ks.filter fun k => keywordIn k user_answer).length :=
      List.length_pos.mpr (List.ne_nil_of_mem hmem)
    unfold evaluate_answer
    rw [if_neg (by omega), if_pos hgt]
  · intro hnone
    have hnil : ks.filter (fun k => keywordIn k user_answer) = [] :=
      List.filter_eq_nil_iff.mpr (by simpa using hnone)
    unfold evaluate_answer
    rw [if_neg (by rw [hnil]; simp; omega), if_neg (by rw [hnil]; simp)]
    exact ⟨rfl, rfl⟩

/-- Witness for C9: the two concrete cases of the spec — with keywords
photosynthesis/sunlight, "plants use sunlight and photosynthesis to grow" is
CORRECT and "plants grow" is WRONG. -/
theorem evaluate_answer_verdicts_witness :
    (evaluate_answer "stub reply" "plants use sunlight and photosynthesis to grow"
      ["photosynthesis", "sunlight"]).verdict = "CORRECT" ∧
    (evaluate_answer "stub reply" "plants grow"
      ["photosynthesis", "sunlight"]).verdict = "WRONG" :=
  ⟨(evaluate_answer_verdicts "stub reply" "plants use sunlight and photosynthesis to grow"
      ["photosynthesis", "sunlight"] (by decide)).1 (by decide),
    ((evaluate_answer_verdicts "stub reply" "plants grow"
      ["photosynthesis", "sunlight"] (by decide)).2.2 (by decide)).1⟩

/-! ## Claim C2 -/

/-- C2, counterexample: starting again with a `session_id` whose stored document
has accumulated progress (5 turns, subtopic index 2, two passed subtopics, three
history entries) leaves the store holding a fresh default document — count 0,
index 0, all-false statuses, history reduced to the single new intro turn — so
the existing document is not reused. -/
theorem start_revision_session_resets :
    priorDoc.conversation_count = 5 ∧
    priorDoc.current_subtopic_index = 2 ∧
    priorDoc.subtopic_completion_status = [true, true, false] ∧
    (start_revision_session (some priorDoc) 3 "t" "stu" "sid" "intro2").map
      Doc.conversation_count = some 0 ∧
    (start_revision_session (some priorDoc) 3 "t" "stu" "sid" "intro2").map
      Doc.current_subtopic_index = some 0 ∧
    (start_revision_session (some priorDoc) 3 "t" "stu" "sid" "intro2").map
      Doc.subtopic_completion_status = some [false, false, false] ∧
    (start_revision_session (some priorDoc) 3 "t" "stu" "sid" "intro2").map
      Doc.conversation_history = some [(0, "intro2")] :=
  ⟨rfl, rfl, rfl, rfl, rfl, rfl, rfl⟩

/-- C2 (amended): a second `start_revision_session` call with an existing
`session_id` does not load the stored document — it builds a fresh document with
default fields and `$set`s it over the old one, so whatever the store held before,
afterwards every progress field carries its default (count 0, index 0, all-false
statuses, empty score history, history reduced to the single new intro turn, not
complete, stage `topic_intro`); the only stored key the `$set` does not touch is
`current_stage`, which keeps its previous value. -/
theorem start_revision_session_fresh (store : Option Doc) (k : Nat)
    (topic student_id session_id intro : String) :
    (start_revision_session store k topic student_id session_id intro).map
      Doc.conversation_count = some 0 ∧
    (start_revision_session store k topic student_id session_id intro).map
      Doc.current_subtopic_index = some 0 ∧
    (start_revision_session store k topic student_id session_id intro).map
      Doc.subtopic_completion_status = some (List.replicate k false) ∧
    (start_revision_session store k topic student_id session_id intro).map
      Doc.subtopic_quiz_scores = some [] ∧
    (start_revision_session store k topic student_id session_id intro).map
      Doc.conversation_history = some [(0, intro)] ∧
    (start_revision_session store k topic student_id session_id intro).map
      Doc.is_complete = some false ∧
    (start_revision_session store k topic student_id session_id intro).map
      Doc.stage = some "topic_intro" ∧
    (start_revision_session store k topic student_id session_id intro).map
      Doc.current_stage = some (store.bind Doc.current_stage) := by
  cases store with
  | none => exact ⟨rfl, rfl, rfl, rfl, rfl, rfl, rfl, rfl⟩
  | some old => exact ⟨rfl, rfl, rfl, rfl, rfl, rfl, rfl, rfl⟩

/-! ## Claim C1 -/

theorem handle_next_preserved (k : Nat) (db : Doc) :
    (handle_user_input_next k db).1.current_subtopic_index = db.current_subtopic_index ∧
    (handle_user_input_next k db).1.is_complete = db.is_complete ∧
    (handle_user_input_next k db).2.is_session_complete =
      decide (k ≤ db.current_subtopic_index + 1) := by
  unfold handle_user_input_next move_to_next_subtopic save_conversation_turn_db
  by_cases h : k ≤ db.current_subtopic_index + 1 <;> simp [h]

theorem run_next_stuck (m : Nat) : ∀ db : Doc, db.current_subtopic_index = 0 →
    (run_next 2 m db).2.map NextOutcome.is_session_complete = List.replicate m false ∧
    (run_next 2 m db).1.current_subtopic_index = 0 ∧
    (run_next 2 m db).1.is_complete = db.is_complete := by
  induction m with
  | zero =>
    intro db h
    exact ⟨rfl, h, rfl⟩
  | succ n ih =>
    intro db h
    obtain ⟨h1, h2, h3⟩ := handle_next_preserved 2 db
    have flag : (handle_user_input_next 2 db).2.is_session_complete = false := by
      rw [h3, h]
      decide
    have ihh := ih (handle_user_input_next 2 db).1 (by rw [h1, h])
    refine ⟨?_, ihh.2.1, ?_⟩
    · show (handle_user_input_next 2 db).2.is_session_complete ::
          (run_next 2 n (handle_user_input_next 2 db).1).2.map NextOutcome.is_session_complete =
        List.replicate (n + 1) false
      rw [flag, ihh.1, List.replicate_succ]
    · show (run_next 2 n (handle_user_input_next 2 db).1).1.is_complete = db.is_complete
      rw [ihh.2.2, h2]

/-- C1: with the store updated only through `_save_conversation_turn` (which never
persists `current_subtopic_index` or `is_complete`), a session over a topic with
2 subtopics answers every NEXT call with `is_session_complete = false` — the
stored index stays 0 forever, so completion is never reached, contradicting the
claimed eventual single `true`.  For a 1-subtopic topic the completion branch is
instead re-entered on every call: two NEXT calls both return `true`, so `true` is
also never returned exactly once. -/
theorem next_sequence_never_completes :
    (∀ m : Nat,
      (run_next 2 m (fresh_session_doc 2 "t" "stu" "sid" "intro")).2.map
        NextOutcome.is_session_complete = List.replicate m false ∧
      (run_next 2 m (fresh_session_doc 2 "t" "stu" "sid" "intro")).1.current_subtopic_index
        = 0 ∧
      (run_next 2 m (fresh_session_doc 2 "t" "stu" "sid" "intro")).1.is_complete = false) ∧
    (run_next 1 2 (fresh_session_doc 1 "t" "stu" "sid" "intro")).2.map
      NextOutcome.is_session_complete = [true, true] := by
  constructor
  · intro m
    exact run_next_stuck m (fresh_session_doc 2 "t" "stu" "sid" "intro") rfl
  · rfl

/-! ## Claim C3 -/

/-- C3: no branch of `handle_user_input` returns a dictionary containing the key
`conversation_count` — the literal return dictionary of every handler lacks it —
so the access `result["conversation_count"]` in `continue_revision_session` raises
`KeyError` and the endpoint answers HTTP 500 instead of the claimed response
body. -/
theorem handler_results_lack_conversation_count :
    (∀ summary, lookupKey (complete_session_dict summary) "conversation_count" = none) ∧
    (∀ resp num, lookupKey (start_first_subtopic_dict resp num) "conversation_count" = none) ∧
    lookupKey start_first_subtopic_error_dict "conversation_count" = none ∧
    (∀ resp num, lookupKey (teach_current_subtopic_dict resp num) "conversation_count"
      = none) ∧
    (∀ resp, lookupKey (generate_subtopic_quiz_dict resp) "conversation_count" = none) ∧
    (∀ resp passed score, lookupKey (evaluate_subtopic_quiz_dict resp passed score)
      "conversation_count" = none) ∧
    (∀ resp num, lookupKey (retry_subtopic_explanation_dict resp num) "conversation_count"
      = none) ∧
    (∀ resp, lookupKey (move_to_next_complete_dict resp) "conversation_count" = none) ∧
    (∀ resp num, lookupKey (move_to_next_learning_dict resp num) "conversation_count"
      = none) ∧
    (∀ resp srcs, lookupKey (handle_general_question_dict resp srcs) "conversation_count"
      = none) ∧
    lookupKey session_not_found_dict "conversation_count" = none ∧
    (∀ resp num, continue_endpoint_count (move_to_next_learning_dict resp num) =
      .error "HTTP 500") := by
  refine ⟨fun _ => rfl, fun _ _ => rfl, rfl, fun _ _ => rfl, fun _ => rfl,
    fun _ _ _ => rfl, fun _ _ => rfl, fun _ => rfl, fun _ _ => rfl, fun _ _ => rfl,
    rfl, fun _ _ => rfl⟩

/-! ## Claim C10 -/

theorem applyInput_quiz_scores (s : Doc) (a : HandlerAction) :
    (applyInput s a).quiz_scores = s.quiz_scores := by
  cases a with
  | nextAction k =>
    unfold applyInput move_to_next_subtopic
    dsimp only
    split <;> rfl
  | _ => rfl

theorem foldl_applyInput_quiz_scores (acts : List HandlerAction) : ∀ s : Doc,
    (acts.foldl applyInput s).quiz_scores = s.quiz_scores := by
  induction acts with
  | nil => intro s; rfl
  | cons a as ih =>
    intro s
    rw [List.foldl_cons, ih, applyInput_quiz_scores]

/-- C10: a session built by `start_revision_session` and mutated by any sequence
of handler dispatches keeps the flat `quiz_scores` history empty — the FEEDBACK
handler writes only `subtopic_quiz_scores` and no handler appends to
`quiz_scores` — so `_complete_session` always reports average score 0 and
`quizzes_taken = 0` no matter how many quizzes were graded. -/
theorem quiz_scores_stay_empty (acts : List HandlerAction) (k : Nat)
    (topic student_id session_id intro : String) :
    (∀ (s : Doc) (score : Rat),
      (evaluate_subtopic_quiz_state score s).quiz_scores = s.quiz_scores) ∧
    (acts.foldl applyInput
      (fresh_session_doc k topic student_id session_id intro)).quiz_scores = [] ∧
    (complete_session_stats (acts.foldl applyInput
      (fresh_session_doc k topic student_id session_id intro))).1 = 0 ∧
    (complete_session_stats (acts.foldl applyInput
      (fresh_session_doc k topic student_id session_id intro))).2 = 0 := by
  have h : (acts.foldl applyInput
      (fresh_session_doc k topic student_id session_id intro)).quiz_scores = [] :=
    foldl_applyInput_quiz_scores acts _
  refine ⟨fun _ _ => rfl, h, ?_, ?_⟩ <;> simp [complete_session_stats, h]

end TT
